import Mathlib

/-!
# Shallow embedding of `etl.py` (Project_Data-Lake)

This file embeds the transformation core of `src/etl.py` — the two pipeline
functions `process_song_data` and `process_log_data` — and proves properties
of the spec against it.

Modelling conventions:

* A Spark dataframe read from JSON is a `List` of records whose fields are
  `Option`-typed (a JSON field may be absent/null).
* `SELECT DISTINCT ... WHERE k IS NOT NULL` is `filter` (the null test),
  then `map` (the projection), then `List.dedup` (row-tuple distinctness;
  Spark's DISTINCT order is nondeterministic, so only membership and
  duplicate-freeness of the result are meaningful).
* Timestamps: the raw `ts` field is epoch milliseconds (`Int`).  An absolute
  instant is modelled by its epoch-millisecond value.
  - The udf `get_datetime = lambda x: datetime.fromtimestamp(int(x) / 1000.0)`
    produces the instant at exactly `ts` milliseconds (the double division
    `ts/1000.0` followed by rounding to microseconds reproduces the
    millisecond exactly for epoch values in range), so it is modelled as
    the identity on epoch milliseconds.
  - Spark's `FROM_UNIXTIME(ts/1000)`: `/` is double division, the implicit
    cast of the double argument to BIGINT truncates toward zero, and the
    result is a second-precision string; it is modelled as the
    epoch-millisecond value of that whole second.
  - Calendar fields (`hour`, `day`, `weekofyear`, `month`, `year`,
    `dayofweek`) are computed with the proleptic Gregorian calendar at UTC
    (the session timezone is environmental; the spec fixes UTC-naive
    semantics).  `dayofweek` follows Spark's convention 1 = Sunday .. 7 =
    Saturday; `weekofyear` is the ISO-8601 week number.
* Persistence: `Storage` holds the five table destinations (`none` = nothing
  readable there, which also models an unreachable path); each
  `write.mode("overwrite")` both replaces the destination and emits a
  `WriteOp` recording mode and partitioning; `spark.read.parquet` on an
  unreadable destination is the `StorageError` failure path.
-/

/-- One raw song-data JSON record (`spark.read.json(song_data)`).
`duration`, `artist_latitude` and `artist_longitude` are floating-point
payloads that no transformation computes with; they are carried opaquely as
`Option Int` surrogates. -/
structure CatalogRecord where
  song_id : Option String
  title : Option String
  artist_id : Option String
  artist_name : Option String
  artist_location : Option String
  artist_latitude : Option Int
  artist_longitude : Option Int
  year : Option Int
  duration : Option Int
deriving DecidableEq, Repr

/-- One raw log-data JSON record (`spark.read.json(log_data)`). -/
structure ActivityRecord where
  page : Option String
  ts : Option Int
  userId : Option String
  firstName : Option String
  lastName : Option String
  gender : Option String
  level : Option String
  song : Option String
  sessionId : Option Int
  location : Option String
  userAgent : Option String
deriving DecidableEq, Repr

/-- Row of the songs table (`SELECT DISTINCT song_id, title, artist_id, year,
duration FROM songs WHERE song_id IS NOT NULL`). -/
structure SongRow where
  song_id : Option String
  title : Option String
  artist_id : Option String
  year : Option Int
  duration : Option Int
deriving DecidableEq, Repr

/-- Row of the artists table (the source aliases `artist_latitude` as
`lattitude`, kept verbatim). -/
structure ArtistRow where
  artist_id : Option String
  name : Option String
  location : Option String
  lattitude : Option Int
  longitude : Option Int
deriving DecidableEq, Repr

/-- Row of the users table. -/
structure UserRow where
  user_id : Option String
  first_name : Option String
  last_name : Option String
  gender : Option String
  level : Option String
deriving DecidableEq, Repr

/-- Row of the time table; `start_time` is the `datetime` column in epoch
milliseconds, the remaining columns are its calendar decomposition. -/
structure TimeRow where
  start_time : Int
  hour : Int
  day : Int
  week : Int
  month : Int
  year : Int
  weekday : Int
deriving DecidableEq, Repr

/-- Row of the songplays fact table.  `songplay_id` models
`monotonically_increasing_id()` (unique within a run); `start_time` is the
instant denoted by `FROM_UNIXTIME(ts/1000)` in epoch milliseconds (null when
`ts` is null). -/
structure SongplayRow where
  songplay_id : Nat
  start_time : Option Int
  user_id : Option String
  level : Option String
  song_id : Option String
  artist_id : Option String
  session_id : Option Int
  location : Option String
  user_agent : Option String
deriving DecidableEq, Repr

/-! ## Calendar arithmetic (UTC, proleptic Gregorian) -/

/-- Civil date from days since 1970-01-01 (Gregorian; the standard
era-decomposition algorithm).  Returns `(year, month, day)`. -/
def civilFromDays (z : Int) : Int × Int × Int :=
  let z' := z + 719468
  let era := Int.fdiv z' 146097
  let doe := z' - era * 146097
  let yoe := Int.fdiv (doe - Int.fdiv doe 1460 + Int.fdiv doe 36524 - Int.fdiv doe 146096) 365
  let y := yoe + era * 400
  let doy := doe - (365 * yoe + Int.fdiv yoe 4 - Int.fdiv yoe 100)
  let mp := Int.fdiv (5 * doy + 2) 153
  let d := doy - Int.fdiv (153 * mp + 2) 5 + 1
  let m := mp + (if mp < 10 then 3 else -9)
  (y + (if m ≤ 2 then 1 else 0), m, d)

/-- Days since 1970-01-01 of a civil date (inverse of `civilFromDays`). -/
def daysFromCivil (y m d : Int) : Int :=
  let y' := y - (if m ≤ 2 then 1 else 0)
  let era := Int.fdiv y' 400
  let yoe := y' - era * 400
  let doy := Int.fdiv (153 * (m + (if 2 < m then -3 else 9)) + 2) 5 + d - 1
  let doe := yoe * 365 + Int.fdiv yoe 4 - Int.fdiv yoe 100 + doy
  era * 146097 + doe - 719468

/-- Epoch milliseconds of a naive civil datetime (UTC). -/
def naiveMs (y m d h mi s ms : Int) : Int :=
  (daysFromCivil y m d * 86400 + h * 3600 + mi * 60 + s) * 1000 + ms

/-- Days-since-epoch of an epoch-millisecond instant. -/
def epochDays (tsMs : Int) : Int := Int.fdiv tsMs 86400000

/-- Number of ISO-8601 weeks in year `y` (52 or 53). -/
def isoWeeks (y : Int) : Int :=
  let p := fun (v : Int) => Int.emod (v + Int.fdiv v 4 - Int.fdiv v 100 + Int.fdiv v 400) 7
  if p y = 4 ∨ p (y - 1) = 3 then 53 else 52

/-- ISO-8601 week-of-year of the day `z` days after 1970-01-01
(Spark's `weekofyear`). -/
def weekOfYear (z : Int) : Int :=
  let c := civilFromDays z
  let doy := z - daysFromCivil c.1 1 1 + 1
  let wd := Int.emod (z + 3) 7 + 1
  let w := Int.fdiv (10 + doy - wd) 7
  if w < 1 then isoWeeks (c.1 - 1) else if isoWeeks c.1 < w then 1 else w

/-! ## Timestamp conversions of the source -/

/-- `get_datetime = udf(lambda x: datetime.fromtimestamp(int(x) / 1000.0),
TimestampType())` (etl.py:126): the instant at `ts` epoch milliseconds. -/
def get_datetime (ts : Int) : Int := ts

/-- The instant denoted by `FROM_UNIXTIME(ts/1000)` (etl.py:155): double
division, truncating cast to BIGINT, second-precision result — the whole
second containing `ts`, in epoch milliseconds. -/
def from_unixtime_ms (ts : Int) : Int := 1000 * Int.tdiv ts 1000

/-- The time-table row of the `datetime` value at `tsMs` epoch milliseconds:
`SELECT datetime, hour(datetime), day(datetime), weekofyear(datetime),
month(datetime), year(datetime), dayofweek(datetime)` (etl.py:131-142). -/
def mkTimeRow (tsMs : Int) : TimeRow :=
  let z := epochDays tsMs
  let c := civilFromDays z
  { start_time := tsMs
    hour := Int.fdiv (Int.emod tsMs 86400000) 3600000
    day := c.2.2
    week := weekOfYear z
    month := c.2.1
    year := c.1
    weekday := Int.emod (z + 4) 7 + 1 }

/-! ## The five table derivations -/

/-- `songs_table` (etl.py:51-60): project, null-filter on `song_id`,
row-tuple DISTINCT. -/
def songs_table (records : List CatalogRecord) : List SongRow :=
  ((records.filter fun r => decide (r.song_id ≠ none)).map fun r =>
    { song_id := r.song_id, title := r.title, artist_id := r.artist_id,
      year := r.year, duration := r.duration }).dedup

/-- `artists_table` (etl.py:66-75): project (with the source's column
aliases), null-filter on `artist_id`, row-tuple DISTINCT. -/
def artists_table (records : List CatalogRecord) : List ArtistRow :=
  ((records.filter fun r => decide (r.artist_id ≠ none)).map fun r =>
    { artist_id := r.artist_id, name := r.artist_name,
      location := r.artist_location, lattitude := r.artist_latitude,
      longitude := r.artist_longitude }).dedup

/-- The `logs` temp view (etl.py:103): `df.filter(df.page=="NextSong")`.
A null `page` compares as null and is dropped. -/
def logsView (records : List ActivityRecord) : List ActivityRecord :=
  records.filter fun r => decide (r.page = some "NextSong")

/-- Projection of an activity record to a users-table row. -/
def toUserRow (r : ActivityRecord) : UserRow :=
  { user_id := r.userId, first_name := r.firstName, last_name := r.lastName,
    gender := r.gender, level := r.level }

/-- `users_table` (etl.py:106-115): from the filtered `logs` view, project,
null-filter on `userId`, row-tuple DISTINCT. -/
def users_table (records : List ActivityRecord) : List UserRow :=
  (((logsView records).filter fun r => decide (r.userId ≠ none)).map toUserRow).dedup

/-- `time_table` (etl.py:131-142).  The `time` view (etl.py:130) is built
from `df`, which is NOT the filtered frame: etl.py:103 never reassigns `df`,
so every record of the raw log input contributes here, whatever its `page`.
`datetime` is null exactly when `ts` is null (`WHERE datetime IS NOT NULL`),
hence the `filterMap` on `ts`. -/
def time_table (records : List ActivityRecord) : List TimeRow :=
  ((records.filterMap fun r => r.ts).map fun ts => mkTimeRow (get_datetime ts)).dedup

/-- SQL equality `s.title = l.song`: null on either side is not a match. -/
def titleMatch (title song : Option String) : Bool :=
  match title, song with
  | some a, some b => decide (a = b)
  | _, _ => false

/-- The block of fact rows one qualifying log record contributes under
`LEFT JOIN songs s ON (s.title = l.song)` (etl.py:152-165): one row per
matching song row, or a single row with null `song_id`/`artist_id` when no
song row matches.  `songplay_id` is assigned afterwards. -/
def joinRows (songs : List SongRow) (l : ActivityRecord) : List SongplayRow :=
  let ms := songs.filter fun s => titleMatch s.title l.song
  if ms.isEmpty then
    [{ songplay_id := 0, start_time := l.ts.map from_unixtime_ms,
       user_id := l.userId, level := l.level, song_id := none,
       artist_id := none, session_id := l.sessionId, location := l.location,
       user_agent := l.userAgent }]
  else
    ms.map fun s =>
      { songplay_id := 0, start_time := l.ts.map from_unixtime_ms,
        user_id := l.userId, level := l.level, song_id := s.song_id,
        artist_id := s.artist_id, session_id := l.sessionId,
        location := l.location, user_agent := l.userAgent }

/-- Assign consecutive `songplay_id`s starting at `i`
(`monotonically_increasing_id()`, modelled as dense indices — only
uniqueness within a run is contractual). -/
def assignIds (i : Nat) : List SongplayRow → List SongplayRow
  | [] => []
  | r :: rs => { r with songplay_id := i } :: assignIds (i + 1) rs

/-- `songplays_table` (etl.py:152-165): left join of the `logs` view with
the songs table read back from storage. -/
def songplays_table (songs : List SongRow) (records : List ActivityRecord) :
    List SongplayRow :=
  assignIds 0 ((logsView records).flatMap (joinRows songs))

/-! ## Run semantics: storage, writes and failure -/

/-- Spark save mode; every write in the source uses `overwrite`. -/
inductive SaveMode where
  | overwrite
  | append
deriving DecidableEq, Repr

/-- One `write` call: destination path, save mode, `partitionBy` columns
(empty = unpartitioned). -/
structure WriteOp where
  path : String
  mode : SaveMode
  partitionColumns : List String
deriving DecidableEq, Repr

/-- The five table destinations.  `none` means nothing readable there
(never written, or storage unreachable). -/
structure Storage where
  songs : Option (List SongRow)
  artists : Option (List ArtistRow)
  users : Option (List UserRow)
  time : Option (List TimeRow)
  songplays : Option (List SongplayRow)
deriving DecidableEq, Repr

/-- Storage with nothing readable at any destination. -/
def emptyStorage : Storage :=
  { songs := none, artists := none, users := none, time := none,
    songplays := none }

/-- A fatal error aborting the run. -/
inductive RunError where
  | storageError
deriving DecidableEq, Repr

/-- `process_song_data` (etl.py:31-78): derive and overwrite songs
(partitioned by year, artist_id) and artists (unpartitioned).  Returns the
updated storage and the writes performed, in order. -/
def process_song_data (output_data : String) (records : List CatalogRecord)
    (st : Storage) : Storage × List WriteOp :=
  let st1 := { st with songs := some (songs_table records) }
  let w1 : WriteOp := { path := output_data ++ "songs/", mode := .overwrite,
                        partitionColumns := ["year", "artist_id"] }
  let st2 := { st1 with artists := some (artists_table records) }
  let w2 : WriteOp := { path := output_data ++ "artists/", mode := .overwrite,
                        partitionColumns := [] }
  (st2, [w1, w2])

/-- `process_log_data` (etl.py:81-168): overwrite users (unpartitioned),
then time (partitioned by year, month), then read the songs table back from
storage (etl.py:148) — failing with `storageError` when it is unreadable —
and only then derive and overwrite songplays (unpartitioned).  Returns the
final storage, the writes performed in order, and the error if any. -/
def process_log_data (output_data : String) (records : List ActivityRecord)
    (st : Storage) : Storage × List WriteOp × Option RunError :=
  let st1 := { st with users := some (users_table records) }
  let wU : WriteOp := { path := output_data ++ "users/", mode := .overwrite,
                        partitionColumns := [] }
  let st2 := { st1 with time := some (time_table records) }
  let wT : WriteOp := { path := output_data ++ "time/", mode := .overwrite,
                        partitionColumns := ["year", "month"] }
  match st2.songs with
  | none => (st2, [wU, wT], some .storageError)
  | some song_df =>
      let st3 := { st2 with songplays := some (songplays_table song_df records) }
      let wS : WriteOp := { path := output_data ++ "songplays/",
                            mode := .overwrite, partitionColumns := [] }
      (st3, [wU, wT, wS], none)

/-- `main` (etl.py:171-185): run the catalog pipeline, then the activity
pipeline, against the same output space. -/
def runPipeline (output_data : String) (cat : List CatalogRecord)
    (acts : List ActivityRecord) (st : Storage) :
    Storage × List WriteOp × Option RunError :=
  let p := process_song_data output_data cat st
  let q := process_log_data output_data acts p.1
  (q.1, p.2 ++ q.2.1, q.2.2)

/-! ## Concrete fixtures for counterexamples and witnesses -/

/-- The activity record of the spec's scenario: `{ts: 1541105830796,
userId: "8", page: "NextSong", song: "You Gotta Be", ...}`. -/
def rec6 : ActivityRecord :=
  { page := some "NextSong", ts := some 1541105830796, userId := some "8",
    firstName := some "Kaylee", lastName := some "Summers",
    gender := some "F", level := some "free", song := some "You Gotta Be",
    sessionId := some 139, location := some "Phoenix-Mesa-Scottsdale, AZ",
    userAgent := some "Mozilla/5.0" }

/-- A songs table containing no row titled "You Gotta Be". -/
def songsC6 : List SongRow :=
  [{ song_id := some "SOXYZ1", title := some "Some Other Song",
     artist_id := some "ARABC1", year := some 1994, duration := some 266 }]

/-- An activity record whose `page` is "Home", not "NextSong". -/
def recHome : ActivityRecord :=
  { page := some "Home", ts := some 1541105830796, userId := some "8",
    firstName := some "Kaylee", lastName := some "Summers",
    gender := some "F", level := some "free", song := none,
    sessionId := some 139, location := some "Phoenix-Mesa-Scottsdale, AZ",
    userAgent := some "Mozilla/5.0" }

/-- A song row titled "Foo". -/
def fooSong : SongRow :=
  { song_id := some "S1", title := some "Foo", artist_id := some "A1",
    year := some 2001, duration := some 180 }

/-- A second, distinct song row with the same title "Foo". -/
def fooSong2 : SongRow :=
  { song_id := some "S2", title := some "Foo", artist_id := some "A2",
    year := some 2002, duration := some 200 }

/-- A qualifying activity record that played "Foo". -/
def fooLog : ActivityRecord :=
  { page := some "NextSong", ts := some 1542241826796, userId := some "15",
    firstName := some "Lily", lastName := some "Koch", gender := some "F",
    level := some "paid", song := some "Foo", sessionId := some 818,
    location := some "Chicago-Naperville-Elgin, IL-IN-WI",
    userAgent := some "Mozilla/5.0" }

/-- A qualifying activity record that played "Bar" (no catalog match). -/
def barLog : ActivityRecord :=
  { page := some "NextSong", ts := some 1542242481796, userId := some "15",
    firstName := some "Lily", lastName := some "Koch", gender := some "F",
    level := some "paid", song := some "Bar", sessionId := some 818,
    location := some "Chicago-Naperville-Elgin, IL-IN-WI",
    userAgent := some "Mozilla/5.0" }

/-- A catalog record with song_id "S1" and title "Take A".  -/
def cDup1 : CatalogRecord :=
  { song_id := some "S1", title := some "Take A", artist_id := some "A1",
    artist_name := some "The Dups", artist_location := some "NY",
    artist_latitude := some 40, artist_longitude := some (-74),
    year := some 1999, duration := some 210 }

/-- A second catalog record with the same song_id "S1" but title "Take B". -/
def cDup2 : CatalogRecord :=
  { song_id := some "S1", title := some "Take B", artist_id := some "A1",
    artist_name := some "The Dups", artist_location := some "NY",
    artist_latitude := some 40, artist_longitude := some (-74),
    year := some 1999, duration := some 210 }

/-- Two activity records for the same user "15" differing in `level`. -/
def lvlFree : ActivityRecord :=
  { fooLog with level := some "free" }

/-! ## Helper lemmas -/

/-- `assignIds` preserves length. -/
theorem assignIds_length (i : Nat) (l : List SongplayRow) :
    (assignIds i l).length = l.length := by
  induction l generalizing i with
  | nil => rfl
  | cons r rs ih => simp [assignIds, ih]

/-- Projections that ignore `songplay_id` commute with `assignIds`. -/
theorem assignIds_map {α : Type} (f : SongplayRow → α)
    (hf : ∀ (r : SongplayRow) (i : Nat), f { r with songplay_id := i } = f r)
    (i : Nat) (l : List SongplayRow) :
    (assignIds i l).map f = l.map f := by
  induction l generalizing i with
  | nil => rfl
  | cons r rs ih => simp [assignIds, hf, ih]

/-- Every fact row a log record contributes carries the record's
`FROM_UNIXTIME`-converted timestamp. -/
theorem joinRows_start_time (songs : List SongRow) (l : ActivityRecord)
    (r : SongplayRow) (hr : r ∈ joinRows songs l) :
    r.start_time = l.ts.map from_unixtime_ms := by
  unfold joinRows at hr
  cases he : (songs.filter fun s => titleMatch s.title l.song).isEmpty with
  | true =>
      simp [he] at hr
      simp [hr]
  | false =>
      simp [he] at hr
      obtain ⟨s, _, rfl⟩ := hr
      rfl

/-- A qualifying log record always contributes at least one fact row. -/
theorem joinRows_ne_nil (songs : List SongRow) (l : ActivityRecord) :
    joinRows songs l ≠ [] := by
  unfold joinRows
  cases he : (songs.filter fun s => titleMatch s.title l.song).isEmpty with
  | true => simp [he]
  | false =>
      have hne : (songs.filter fun s => titleMatch s.title l.song) ≠ [] := by
        simpa [List.isEmpty_iff] using he
      obtain ⟨x, hx⟩ := List.exists_mem_of_ne_nil _ hne
      simp only [he, Bool.false_eq_true, if_false]
      exact List.ne_nil_of_mem (List.mem_map_of_mem _ hx)

/-- When a played title matches at most one song row, the record contributes
exactly one fact row. -/
theorem joinRows_length_le_one (songs : List SongRow) (l : ActivityRecord)
    (h : (songs.filter fun s => titleMatch s.title l.song).length ≤ 1) :
    (joinRows songs l).length = 1 := by
  unfold joinRows
  cases he : (songs.filter fun s => titleMatch s.title l.song).isEmpty with
  | true => simp [he]
  | false =>
      simp only [he, Bool.false_eq_true, if_false, List.length_map]
      have hne : (songs.filter fun s => titleMatch s.title l.song) ≠ [] := by
        simpa [List.isEmpty_iff] using he
      have hpos := List.length_pos.mpr hne
      omega

/-! ## Claim C1 — Time/Event timestamp consistency -/

/-- C1 (counterexample): for the record `rec6` (raw ts 1541105830796), the
start_time computed for the Time table keeps the 796 ms sub-second
component, while the start_time computed for the Event table from the same
raw ts truncates to the whole second — the two values are not identical, so
bit-for-bit equality including the sub-second component fails. -/
theorem C1_counterexample_subsecond :
    ((time_table [rec6]).map TimeRow.start_time) = [1541105830796] ∧
    ((songplays_table [] [rec6]).map SongplayRow.start_time) =
      [some 1541105830000] ∧
    (1541105830796 : Int) ≠ (1541105830000 : Int) := by
  decide

/-- C1 (amended): for every qualifying activity record, the Time-side
start_time is the exact millisecond instant of the raw ts, the Event-side
start_time is that instant truncated to its whole second by
`FROM_UNIXTIME(ts/1000)`, and the two are identical exactly when the raw ts
is a whole multiple of 1000 milliseconds. -/
theorem C1_timestamp_agreement (songs : List SongRow)
    (acts : List ActivityRecord) (rec : ActivityRecord) (ts : Int)
    (hmem : rec ∈ acts) (hpage : rec.page = some "NextSong")
    (hts : rec.ts = some ts) :
    (mkTimeRow (get_datetime ts)).start_time = ts ∧
    mkTimeRow (get_datetime ts) ∈ time_table acts ∧
    (∃ r ∈ songplays_table songs acts,
      r.start_time = some (from_unixtime_ms ts)) ∧
    from_unixtime_ms ts = 1000 * Int.tdiv (get_datetime ts) 1000 ∧
    (from_unixtime_ms ts = get_datetime ts ↔ Int.tmod ts 1000 = 0) := by
  refine ⟨rfl, ?_, ?_, rfl, ?_⟩
  · refine List.mem_dedup.mpr (List.mem_map.mpr ⟨ts, ?_, rfl⟩)
    exact List.mem_filterMap.mpr ⟨rec, hmem, hts⟩
  · have hlog : rec ∈ logsView acts :=
      List.mem_filter.mpr ⟨hmem, by simp [hpage]⟩
    obtain ⟨r0, hr0⟩ :=
      List.exists_mem_of_ne_nil _ (joinRows_ne_nil songs rec)
    have hst : r0.start_time = some (from_unixtime_ms ts) := by
      rw [joinRows_start_time songs rec r0 hr0, hts]
      rfl
    have hmem2 : some (from_unixtime_ms ts) ∈
        (songplays_table songs acts).map SongplayRow.start_time := by
      rw [songplays_table, assignIds_map SongplayRow.start_time (fun r i => rfl) 0]
      exact List.mem_map.mpr ⟨r0, List.mem_flatMap.mpr ⟨rec, hlog, hr0⟩, hst⟩
    obtain ⟨r, hr, hrst⟩ := List.mem_map.mp hmem2
    exact ⟨r, hr, hrst⟩
  · have hq := Int.tmod_add_tdiv ts 1000
    unfold from_unixtime_ms get_datetime
    generalize Int.tmod ts 1000 = m at hq ⊢
    generalize Int.tdiv ts 1000 = q at hq ⊢
    constructor
    · intro h
      omega
    · intro h
      omega

/-- C1 witness: the amended statement at the concrete record `rec6`. -/
theorem C1_timestamp_agreement_witness :
    (mkTimeRow (get_datetime 1541105830796)).start_time = 1541105830796 ∧
    mkTimeRow (get_datetime 1541105830796) ∈ time_table [rec6] ∧
    (∃ r ∈ songplays_table [] [rec6],
      r.start_time = some (from_unixtime_ms 1541105830796)) ∧
    from_unixtime_ms 1541105830796 =
      1000 * Int.tdiv (get_datetime 1541105830796) 1000 ∧
    (from_unixtime_ms 1541105830796 = get_datetime 1541105830796 ↔
      Int.tmod (1541105830796 : Int) 1000 = 0) :=
  C1_timestamp_agreement [] [rec6] rec6 1541105830796
    (List.mem_singleton.mpr rfl) rfl rfl

/-! ## Claim C2 — filter to NextSong before every derivation -/

/-- C2 (code evaluation): `recHome` has page "Home", not "NextSong", yet the
code derives a Time row from its timestamp, because the `time` view
(etl.py:130) is built from the unfiltered dataframe — etl.py:103 never
reassigns `df` to the filtered frame.  The users table and the fact table do
honour the filter and stay empty. -/
theorem C2_time_view_unfiltered :
    time_table [recHome] = [mkTimeRow (get_datetime 1541105830796)] ∧
    time_table [recHome] ≠ [] ∧
    users_table [recHome] = [] ∧
    songplays_table [] [recHome] = [] := by
  decide

/-! ## Claim C3 — Event row count -/

/-- Length of the join over qualifying records when every played title
matches at most one song row. -/
theorem flatMap_joinRows_length (songs : List SongRow) :
    ∀ logs : List ActivityRecord,
      (∀ l ∈ logs,
        (songs.filter fun s => titleMatch s.title l.song).length ≤ 1) →
      (logs.flatMap (joinRows songs)).length = logs.length
  | [], _ => rfl
  | l :: rest, h => by
      rw [List.flatMap_cons, List.length_append,
        joinRows_length_le_one songs l (h l (List.mem_cons_self l rest)),
        flatMap_joinRows_length songs rest
          (fun x hx => h x (List.mem_cons_of_mem l hx)),
        List.length_cons]
      omega

/-- C3 (counterexample): two song rows share the title "Foo"; one qualifying
activity record playing "Foo" yields two Event rows, so the Event row count
exceeds the count of page=="NextSong" records. -/
theorem C3_counterexample_duplicate_titles :
    (songplays_table [fooSong, fooSong2] [fooLog]).length = 2 ∧
    (logsView [fooLog]).length = 1 ∧ (2 : Nat) ≠ 1 := by
  decide

/-- C3 (amended): whenever every played title matches at most one Song row,
the Event table has exactly one row per page=="NextSong" activity record; in
general a title matched by several Song rows multiplies that record's Event
rows (left-join multiplicity), and rows are never dropped for lack of a
match. -/
theorem C3_row_count (songs : List SongRow) (acts : List ActivityRecord)
    (h : ∀ l ∈ logsView acts,
      (songs.filter fun s => titleMatch s.title l.song).length ≤ 1) :
    (songplays_table songs acts).length = (logsView acts).length := by
  rw [songplays_table, assignIds_length]
  exact flatMap_joinRows_length songs (logsView acts) h

/-- C3 witness: the amended row-count law at a concrete input with one
matched and one unmatched qualifying record. -/
theorem C3_row_count_witness :
    (songplays_table [fooSong] [fooLog, barLog]).length =
      (logsView [fooLog, barLog]).length :=
  C3_row_count [fooSong] [fooLog, barLog] (by decide)

/-! ## Claim C4 — dimension-table key invariants -/

/-- C4 (counterexample): two catalog records share song_id "S1" but differ
in title; DISTINCT dedups the full row tuple, so the songs table retains two
rows with the same song_id key. -/
theorem C4_counterexample_duplicate_key :
    ¬ ((songs_table [cDup1, cDup2]).map SongRow.song_id).Nodup := by
  decide

/-- C4 (amended): every dimension table is free of exact-duplicate rows and
of null-key rows, and every surviving row's key occurs in some input
record; the Time table moreover has no two rows with the same start_time
key (its other columns are functions of the key), while Song, Artist and
User may repeat a key across rows whose non-key attributes differ. -/
theorem C4_dimension_invariants (cat : List CatalogRecord)
    (acts : List ActivityRecord) :
    ((songs_table cat).Nodup ∧
      ∀ r ∈ songs_table cat,
        r.song_id ≠ none ∧ ∃ c ∈ cat, r.song_id = c.song_id) ∧
    ((artists_table cat).Nodup ∧
      ∀ r ∈ artists_table cat,
        r.artist_id ≠ none ∧ ∃ c ∈ cat, r.artist_id = c.artist_id) ∧
    ((users_table acts).Nodup ∧
      ∀ r ∈ users_table acts,
        r.user_id ≠ none ∧ ∃ a ∈ acts, r.user_id = a.userId) ∧
    (((time_table acts).map TimeRow.start_time).Nodup ∧
      ∀ r ∈ time_table acts, ∃ a ∈ acts, a.ts = some r.start_time) := by
  refine ⟨⟨List.nodup_dedup _, ?_⟩, ⟨List.nodup_dedup _, ?_⟩,
    ⟨List.nodup_dedup _, ?_⟩, ⟨?_, ?_⟩⟩
  · intro r hr
    obtain ⟨c, hc, rfl⟩ := List.mem_map.mp (List.mem_dedup.mp hr)
    obtain ⟨hcc, hnn⟩ := List.mem_filter.mp hc
    exact ⟨by simpa using hnn, c, hcc, rfl⟩
  · intro r hr
    obtain ⟨c, hc, rfl⟩ := List.mem_map.mp (List.mem_dedup.mp hr)
    obtain ⟨hcc, hnn⟩ := List.mem_filter.mp hc
    exact ⟨by simpa using hnn, c, hcc, rfl⟩
  · intro r hr
    obtain ⟨a, ha, rfl⟩ := List.mem_map.mp (List.mem_dedup.mp hr)
    obtain ⟨haLog, hnn⟩ := List.mem_filter.mp ha
    exact ⟨by simpa using hnn, a, (List.mem_filter.mp haLog).1, rfl⟩
  · refine List.Nodup.map_on ?_ (List.nodup_dedup _)
    intro x hx y hy hxy
    obtain ⟨tx, _, rfl⟩ := List.mem_map.mp (List.mem_dedup.mp hx)
    obtain ⟨ty, _, rfl⟩ := List.mem_map.mp (List.mem_dedup.mp hy)
    have hts : tx = ty := hxy
    rw [hts]
  · intro r hr
    obtain ⟨t, ht, rfl⟩ := List.mem_map.mp (List.mem_dedup.mp hr)
    obtain ⟨a, ha, hat⟩ := List.mem_filterMap.mp ht
    exact ⟨a, ha, hat⟩

/-! ## Claim C5 — left join on exact title equality -/

/-- C5: the fact derivation is a left join on exact string equality of the
song title: with no matching Song row, a single qualifying record yields
exactly one Event row with null song_id and artist_id (not dropped); with
exactly one matching Song row, it yields exactly one Event row carrying that
row's song_id and artist_id. -/
theorem C5_left_join (songs : List SongRow) (l : ActivityRecord)
    (hpage : l.page = some "NextSong") :
    ((songs.filter fun s => titleMatch s.title l.song) = [] →
      songplays_table songs [l] =
        [{ songplay_id := 0, start_time := l.ts.map from_unixtime_ms,
           user_id := l.userId, level := l.level, song_id := none,
           artist_id := none, session_id := l.sessionId,
           location := l.location, user_agent := l.userAgent }]) ∧
    (∀ s : SongRow, (songs.filter fun s => titleMatch s.title l.song) = [s] →
      songplays_table songs [l] =
        [{ songplay_id := 0, start_time := l.ts.map from_unixtime_ms,
           user_id := l.userId, level := l.level, song_id := s.song_id,
           artist_id := s.artist_id, session_id := l.sessionId,
           location := l.location, user_agent := l.userAgent }]) := by
  constructor
  · intro h
    simp [songplays_table, logsView, hpage, joinRows, h, assignIds]
  · intro s h
    simp [songplays_table, logsView, hpage, joinRows, h, assignIds]

/-- C5 witness: one unmatched and one uniquely matched concrete record. -/
theorem C5_left_join_witness :
    songplays_table [fooSong] [barLog] =
      [{ songplay_id := 0, start_time := barLog.ts.map from_unixtime_ms,
         user_id := barLog.userId, level := barLog.level, song_id := none,
         artist_id := none, session_id := barLog.sessionId,
         location := barLog.location, user_agent := barLog.userAgent }] ∧
    songplays_table [fooSong] [fooLog] =
      [{ songplay_id := 0, start_time := fooLog.ts.map from_unixtime_ms,
         user_id := fooLog.userId, level := fooLog.level,
         song_id := fooSong.song_id, artist_id := fooSong.artist_id,
         session_id := fooLog.sessionId, location := fooLog.location,
         user_agent := fooLog.userAgent }] :=
  ⟨(C5_left_join [fooSong] barLog rfl).1 (by decide),
   (C5_left_join [fooSong] fooLog rfl).2 fooSong (by decide)⟩

/-! ## Claim C6 — the spec's scenario record -/

/-- C6 (counterexample): for the scenario record `rec6` with no Song row
titled "You Gotta Be", the single Event row's start_time is the whole
second 1541105830000 ms — not the instant 2018-11-01T21:57:10.796 UTC-naive
(1541109430796 ms) the claim states, nor even its whole second: the
sub-second part is truncated by FROM_UNIXTIME and that wall-clock reading
is one hour ahead of the record's UTC instant. -/
theorem C6_counterexample_start_time :
    ((songplays_table songsC6 [rec6]).map SongplayRow.start_time) =
      [some (from_unixtime_ms 1541105830796)] ∧
    from_unixtime_ms 1541105830796 ≠ naiveMs 2018 11 1 21 57 10 796 ∧
    from_unixtime_ms 1541105830796 ≠ naiveMs 2018 11 1 21 57 10 0 := by
  decide

/-- C6 (amended): the scenario yields exactly one Event row with null
song_id and artist_id whose start_time denotes 2018-11-01T20:57:10
UTC-naive (epoch second 1541105830): the raw ts's .796 is truncated by the
seconds-level conversion, and the spec's 21:57:10 reading is a UTC+1
rendering of the same instant. -/
theorem C6_scenario :
    songplays_table songsC6 [rec6] =
      [{ songplay_id := 0,
         start_time := some (naiveMs 2018 11 1 20 57 10 0),
         user_id := some "8", level := some "free", song_id := none,
         artist_id := none, session_id := some 139,
         location := some "Phoenix-Mesa-Scottsdale, AZ",
         user_agent := some "Mozilla/5.0" }] ∧
    naiveMs 2018 11 1 20 57 10 0 = 1541105830000 := by
  decide

/-! ## Claim C7 — users table dedups the full tuple -/

/-- C7: the users table dedups on the full row tuple after excluding null
user_id: two qualifying records sharing a user_id but differing in level
both survive as distinct rows with the same user_id, and the table has no
exact-duplicate rows. -/
theorem C7_full_tuple_dedup (acts : List ActivityRecord)
    (r1 r2 : ActivityRecord) (h1 : r1 ∈ acts) (h2 : r2 ∈ acts)
    (hp1 : r1.page = some "NextSong") (hp2 : r2.page = some "NextSong")
    (hu1 : r1.userId ≠ none) (huid : r1.userId = r2.userId)
    (hlev : r1.level ≠ r2.level) :
    toUserRow r1 ∈ users_table acts ∧ toUserRow r2 ∈ users_table acts ∧
    toUserRow r1 ≠ toUserRow r2 ∧
    (toUserRow r1).user_id = (toUserRow r2).user_id ∧
    (users_table acts).Nodup := by
  have hu2 : r2.userId ≠ none := huid ▸ hu1
  refine ⟨?_, ?_, ?_, huid, List.nodup_dedup _⟩
  · exact List.mem_dedup.mpr (List.mem_map.mpr ⟨r1,
      List.mem_filter.mpr
        ⟨List.mem_filter.mpr ⟨h1, by simp [hp1]⟩, by simpa using hu1⟩, rfl⟩)
  · exact List.mem_dedup.mpr (List.mem_map.mpr ⟨r2,
      List.mem_filter.mpr
        ⟨List.mem_filter.mpr ⟨h2, by simp [hp2]⟩, by simpa using hu2⟩, rfl⟩)
  · intro hcon
    exact hlev (congrArg UserRow.level hcon)

/-- C7 witness: user "15" appears with level "paid" and level "free". -/
theorem C7_full_tuple_dedup_witness :
    toUserRow fooLog ∈ users_table [fooLog, lvlFree] ∧
    toUserRow lvlFree ∈ users_table [fooLog, lvlFree] ∧
    toUserRow fooLog ≠ toUserRow lvlFree ∧
    (toUserRow fooLog).user_id = (toUserRow lvlFree).user_id ∧
    (users_table [fooLog, lvlFree]).Nodup :=
  C7_full_tuple_dedup [fooLog, lvlFree] fooLog lvlFree (by decide)
    (by decide) rfl rfl (by decide) rfl (by decide)

/-! ## Claim C8 — write modes and partition assignment -/

/-- C8: in a full run every table write uses overwrite-replace mode, and
the partition assignment is exactly: songs partitioned by
(year, artist_id), time partitioned by (year, month), and artists, users
and songplays written unpartitioned. -/
theorem C8_write_plan (o : String) (cat : List CatalogRecord)
    (acts : List ActivityRecord) (st : Storage) :
    (runPipeline o cat acts st).2.2 = none ∧
    (∀ w ∈ (runPipeline o cat acts st).2.1, w.mode = SaveMode.overwrite) ∧
    (runPipeline o cat acts st).2.1.map
        (fun w => (w.path, w.partitionColumns)) =
      [(o ++ "songs/", ["year", "artist_id"]), (o ++ "artists/", []),
       (o ++ "users/", []), (o ++ "time/", ["year", "month"]),
       (o ++ "songplays/", [])] := by
  refine ⟨rfl, ?_, rfl⟩
  intro w hw
  simp [runPipeline, process_song_data, process_log_data] at hw
  rcases hw with h | h | h | h | h <;> simp [h]

/-! ## Claim C9 — fact step requires the persisted songs table -/

/-- C9: when the songs destination is unreadable at the start of the fact
step, the activity pipeline fails with a storage error, the songplays table
is neither computed nor written (its destination is untouched and no
songplays write is emitted) — the fact step never proceeds without a
successful songs read. -/
theorem C9_song_read_failure (o : String) (acts : List ActivityRecord)
    (st : Storage) (h : st.songs = none) :
    (process_log_data o acts st).2.2 = some RunError.storageError ∧
    (process_log_data o acts st).1.songplays = st.songplays ∧
    (process_log_data o acts st).2.1.map WriteOp.path =
      [o ++ "users/", o ++ "time/"] := by
  simp [process_log_data, h]

/-- C9 witness: empty storage (songs never written). -/
theorem C9_song_read_failure_witness :
    (process_log_data "out/" [] emptyStorage).2.2 =
      some RunError.storageError ∧
    (process_log_data "out/" [] emptyStorage).1.songplays =
      emptyStorage.songplays ∧
    (process_log_data "out/" [] emptyStorage).2.1.map WriteOp.path =
      ["out/" ++ "users/", "out/" ++ "time/"] :=
  C9_song_read_failure "out/" [] emptyStorage rfl

/-! ## Claim C10 — users/time written before the songs read-back -/

/-- C10: users and time are overwritten before the songs read-back, so on
every input on which the fact step fails, the users and time destinations
already hold the newly derived tables while the songplays destination is
left untouched by the run. -/
theorem C10_partial_overwrite_on_failure (o : String)
    (acts : List ActivityRecord) (st : Storage) (h : st.songs = none) :
    (process_log_data o acts st).1.users = some (users_table acts) ∧
    (process_log_data o acts st).1.time = some (time_table acts) ∧
    (process_log_data o acts st).1.songplays = st.songplays ∧
    (process_log_data o acts st).2.2 = some RunError.storageError := by
  simp [process_log_data, h]

/-- C10 witness: a run over one record against empty storage. -/
theorem C10_partial_overwrite_on_failure_witness :
    (process_log_data "out/" [recHome] emptyStorage).1.users =
      some (users_table [recHome]) ∧
    (process_log_data "out/" [recHome] emptyStorage).1.time =
      some (time_table [recHome]) ∧
    (process_log_data "out/" [recHome] emptyStorage).1.songplays =
      emptyStorage.songplays ∧
    (process_log_data "out/" [recHome] emptyStorage).2.2 =
      some RunError.storageError :=
  C10_partial_overwrite_on_failure "out/" [recHome] emptyStorage rfl
